import Mathlib

/-!
Verification development for the GenAICoordinator repository: a shallow
embedding of the multi-agent LangGraph workflow (orchestrator, CAPA agent,
Neo4j agent, vector agent, consolidation) and of the mock MCP data modules,
together with theorems about the claims of the specification.

Python strings are modelled as Lean `String`, Python dicts as insertion-order
association lists, float arithmetic as exact `ℚ`/`ℝ` arithmetic, and calls to
external generative APIs / random number generators as abstract function
parameters, so that every theorem quantifies over all possible outcomes of
those calls.
-/

namespace GenAI

/-! ## Python string primitives -/

/-- Model of Python `str.lower()` (ASCII case mapping, which covers all data
appearing in the repository). -/
def pyLower (s : String) : String := String.mk (s.data.map Char.toLower)

/-- Model of Python `str.upper()` (ASCII case mapping). -/
def pyUpper (s : String) : String := String.mk (s.data.map Char.toUpper)

/-- Model of Python `str.strip()` with no argument: trim whitespace on both
ends (ASCII whitespace, which covers all data appearing here). -/
def pyStrip (s : String) : String :=
  String.mk (((s.data.dropWhile Char.isWhitespace).reverse.dropWhile Char.isWhitespace).reverse)

/-- Split on a one-character separator, as Python `str.split(sep)`. -/
def splitOnCharAux (sep : Char) : List Char → List Char → List (List Char)
  | [], acc => [acc.reverse]
  | c :: rest, acc =>
    if c = sep then acc.reverse :: splitOnCharAux sep rest []
    else splitOnCharAux sep rest (c :: acc)

/-- Python `s.split(sep)` for a one-character separator. -/
def splitOnChar (sep : Char) (s : String) : List String :=
  (splitOnCharAux sep s.data []).map String.mk

/-- Python `s[:n]`. -/
def pyTake (s : String) (n : Nat) : String := String.mk (s.data.take n)

/-- Python `s.startswith(pre)`. -/
def pyStartsWith (s pre : String) : Bool := List.isPrefixOf pre.data s.data

/-- Python `s.endswith(suf)`. -/
def pyEndsWith (s suf : String) : Bool := List.isPrefixOf suf.data.reverse s.data.reverse

/-- Substring test on character lists: `needle` occurs somewhere in `hay`. -/
def hasSubAux (needle : List Char) : List Char → Bool
  | [] => needle.isEmpty
  | c :: rest => List.isPrefixOf needle (c :: rest) || hasSubAux needle rest

/-- Model of Python `needle in hay` on strings. -/
def pyContains (hay needle : String) : Bool := hasSubAux needle.data hay.data

/-! ## C1: the LangGraph workflow built in `MultiAgentWorkflow._build_workflow`

The builder adds five nodes, sets the entry point to `orchestrator` and adds
five plain (unconditional) edges, the last one to the `END` sentinel.  We
record the exact sequence of builder operations and derive the edge list from
it; execution follows the unique outgoing edge of each node, threading an
arbitrary state through arbitrary node functions. -/

/-- One operation performed on the `StateGraph` builder.  The builder API also
offers conditional edges (`add_conditional_edges`); `_build_workflow` never
calls it, which the operation list makes visible. -/
inductive GraphOp
  | addNode (name : String)
  | addEdge (src dst : String)
  | setEntry (name : String)
  | addConditionalEdges (src : String)
deriving DecidableEq

/-- The `END` sentinel of LangGraph. -/
def endSentinel : String := "__end__"

/-- The exact builder calls of `_build_workflow`, in source order. -/
def buildOps : List GraphOp :=
  [ .addNode "orchestrator"
  , .addNode "capa_agent"
  , .addNode "neo4j_agent"
  , .addNode "vector_agent"
  , .addNode "consolidate"
  , .setEntry "orchestrator"
  , .addEdge "orchestrator" "capa_agent"
  , .addEdge "capa_agent" "neo4j_agent"
  , .addEdge "neo4j_agent" "vector_agent"
  , .addEdge "vector_agent" "consolidate"
  , .addEdge "consolidate" endSentinel ]

/-- The plain edges collected from the builder operations. -/
def workflowEdges : List (String × String) :=
  buildOps.foldr
    (fun op acc => match op with
      | .addEdge s d => (s, d) :: acc
      | _ => acc) []

/-- The conditional-edge sources collected from the builder operations. -/
def conditionalEdgeOps : List String :=
  buildOps.foldr
    (fun op acc => match op with
      | .addConditionalEdges s => s :: acc
      | _ => acc) []

/-- The entry point set on the builder (the last `set_entry_point` call). -/
def entryPoint : String := "orchestrator"

/-- The unique successor of a node: the target of the first edge leaving it. -/
def nextNode (n : String) : Option String :=
  (workflowEdges.find? (fun e => e.1 == n)).map (·.2)

/-- Execution of the compiled graph from node `n` in state `s`: the list of
nodes entered, in order.  `f` gives the (arbitrary) state transformation of
each node, so the trace is computed for every possible outcome of the agent
steps.  Fuel bounds the recursion; six steps suffice for this graph. -/
def execTrace {S : Type} (f : String → S → S) : Nat → String → S → List String
  | 0, _, _ => []
  | fuel + 1, n, s =>
    if n = endSentinel then []
    else
      n :: (match nextNode n with
        | none => []
        | some m => execTrace f fuel m (f n s))

/-! ## C3: `OrchestratorAgent.break_down_query` and its static fallback -/

/-- The JSON object produced by `break_down_query`: reasoning, sub-questions
and the agent mapping (a dict, modelled as an insertion-order list). -/
structure Breakdown where
  reasoning : String
  sub_questions : List String
  agent_mapping : List (String × String)
deriving DecidableEq

/-- The static fallback dictionary returned by `break_down_query` when the
Gemini call fails, copied from `agents/orchestrator.py`. -/
def fallbackBreakdown : Breakdown :=
  { reasoning := "Fallback breakdown due to API error"
  , sub_questions :=
      [ "Q1: How many open CAPA are present in the last 1 year?"
      , "Q2: Fetch Investigation details for brand 'Avino' including CAPA ID, Investigation Name, Brand, Batch Number, PDF Link"
      , "Q3: Retrieve clinical trial summary for brand 'Avino' from vector database" ]
  , agent_mapping :=
      [ ("capa_agent", "Analyze CAPA data file for open CAPAs in specified timeframe")
      , ("neo4j_agent", "Query graph database for Avino brand investigations")
      , ("vector_agent", "Search embedded clinical trial documents for Avino summaries") ] }

/-- `break_down_query`.  The single `generate_content` call is modelled by its
outcome: `.error e` if it raised an exception (message `e`), `.ok t` if it
returned a response with text `t`.  An empty text raises `ValueError`, and a
`json.loads` failure (modelled by `parseJson`) raises too; every exception is
caught by the surrounding `try` and answered with the fallback, so the
function is total. -/
def breakDownQuery (call : Except String String)
    (parseJson : String → Option Breakdown) : Breakdown :=
  match call with
  | .error _ => fallbackBreakdown
  | .ok text =>
    if text = "" then fallbackBreakdown
    else
      match parseJson text with
      | some b => b
      | none => fallbackBreakdown

/-! ## C5: `MCPNeo4jModule` mock store and `Neo4jAgent` enrichment -/

/-- An investigation record of the mock Neo4j store. -/
structure Inv where
  id : String
  capa_id : String
  name : String
  brand : String
  batch_number : String
  status : String
  created_date : String
  pdf_link : String
  investigator : String
  department : String
deriving DecidableEq

/-- A CAPA record of the mock Neo4j store. -/
structure CapaNode where
  id : String
  title : String
  status : String
  created_date : String
  due_date : String
  assigned_to : String
deriving DecidableEq

/-- A batch record of the mock Neo4j store. -/
structure BatchNode where
  batch_number : String
  brand : String
  manufacture_date : String
  expiry_date : String
  quantity : String
  status : String
deriving DecidableEq

/-- The `investigations` mock data of `MCPNeo4jModule._initialize_mock_data`. -/
def mockInvestigations : List Inv :=
  [ { id := "INV001", capa_id := "CAPA2024001"
    , name := "Quality Investigation - Batch Deviation", brand := "Avino"
    , batch_number := "AV2024001", status := "Open", created_date := "2024-01-15"
    , pdf_link := "https://documents.company.com/investigations/INV001.pdf"
    , investigator := "Dr. Smith", department := "Quality Assurance" }
  , { id := "INV002", capa_id := "CAPA2024002"
    , name := "Manufacturing Investigation - Process Deviation", brand := "Avino"
    , batch_number := "AV2024002", status := "In Progress", created_date := "2024-02-10"
    , pdf_link := "https://documents.company.com/investigations/INV002.pdf"
    , investigator := "Dr. Johnson", department := "Manufacturing" }
  , { id := "INV003", capa_id := "CAPA2024003"
    , name := "Clinical Investigation - Adverse Event", brand := "Avino"
    , batch_number := "AV2024003", status := "Closed", created_date := "2024-03-05"
    , pdf_link := "https://documents.company.com/investigations/INV003.pdf"
    , investigator := "Dr. Wilson", department := "Clinical Affairs" } ]

/-- The `capas` mock data of `MCPNeo4jModule._initialize_mock_data`. -/
def mockCapaNodes : List CapaNode :=
  [ { id := "CAPA2024001", title := "Improve Batch Documentation Process"
    , status := "Open", created_date := "2024-01-15", due_date := "2024-06-15"
    , assigned_to := "Quality Team" }
  , { id := "CAPA2024002", title := "Enhance Manufacturing Controls"
    , status := "In Progress", created_date := "2024-02-10", due_date := "2024-07-10"
    , assigned_to := "Manufacturing Team" } ]

/-- The `batches` mock data of `MCPNeo4jModule._initialize_mock_data`. -/
def mockBatches : List BatchNode :=
  [ { batch_number := "AV2024001", brand := "Avino", manufacture_date := "2024-01-10"
    , expiry_date := "2026-01-10", quantity := "1000 units", status := "Released" }
  , { batch_number := "AV2024002", brand := "Avino", manufacture_date := "2024-02-05"
    , expiry_date := "2026-02-05", quantity := "1500 units", status := "Released" }
  , { batch_number := "AV2024003", brand := "Avino", manufacture_date := "2024-03-01"
    , expiry_date := "2026-03-01", quantity := "2000 units", status := "Quarantine" } ]

/-- `MCPNeo4jModule.query_investigations`: scan the mock investigations in
store order, skipping records whose brand does not match case-insensitively
and — when the CAPA-ID list is non-empty (a `None` argument is modelled by
`[]`, both being falsy in Python) — records whose `capa_id` is not in the
list.  The accumulating loop appends matching records in store order. -/
def queryInvestigations (brandName : String) (capaIds : List String) : List Inv :=
  mockInvestigations.foldl
    (fun results inv =>
      if (pyLower inv.brand == pyLower brandName) = false then results
      else if decide (capaIds ≠ []) && (capaIds.contains inv.capa_id) = false then results
      else results ++ [inv])
    []

/-- `MCPNeo4jModule.get_capa_details`: first CAPA node with the given id;
`none` models the empty dict returned when no node matches. -/
def getCapaDetails (capaId : String) : Option CapaNode :=
  mockCapaNodes.find? (fun c => c.id == capaId)

/-- `MCPNeo4jModule.get_batch_info`: first batch with the given number. -/
def getBatchInfo (batchNumber : String) : Option BatchNode :=
  mockBatches.find? (fun b => b.batch_number == batchNumber)

/-- `Neo4jAgent._validate_pdf_link` (mock URL-shape check). -/
def validatePdfLink (l : String) : Bool :=
  (pyStartsWith l "http://" || pyStartsWith l "https://") && pyEndsWith l ".pdf"

/-- An investigation record after `Neo4jAgent._enrich_investigation_data`:
the original fields plus the keys the enrichment may add.  The outer `Option`
is `none` when the key was not added (falsy `capa_id` / `batch_number` /
`pdf_link`); the inner `Option` of the lookups models the possibly-empty dict
the MCP module returns. -/
structure EnrichedInv where
  base : Inv
  capa_details : Option (Option CapaNode)
  batch_info : Option (Option BatchNode)
  pdf_accessible : Option Bool
deriving DecidableEq

/-- `Neo4jAgent._enrich_investigation_data`. -/
def enrichInvestigation (inv : Inv) : EnrichedInv :=
  { base := inv
  , capa_details := if inv.capa_id = "" then none else some (getCapaDetails inv.capa_id)
  , batch_info := if inv.batch_number = "" then none else some (getBatchInfo inv.batch_number)
  , pdf_accessible := if inv.pdf_link = "" then none else some (validatePdfLink inv.pdf_link) }

/-- The dictionary returned by `Neo4jAgent.get_investigations`.  Keys absent
from some variants are `Option`s (`query_timestamp` only appears on the
non-empty success path, `error` only on the failure path). -/
structure NeoResult where
  success : Bool
  error : Option String
  investigations : List EnrichedInv
  count : Nat
  brand : String
  capa_ids : List String
  query_timestamp : Option String
deriving DecidableEq

/-- `Neo4jAgent.get_investigations`.  `fetch` is the outcome of the guarded
body up to and including the MCP query: `.error e` models an exception with
message `e` raised inside the `try` block, `.ok invs` the list the MCP module
returned.  `ts` is the timestamp string taken from the clock. -/
def getInvestigationsAgent (fetch : Except String (List Inv))
    (brandName : String) (capaIds : List String) (ts : String) : NeoResult :=
  match fetch with
  | .error e =>
    { success := false, error := some e, investigations := [], count := 0
    , brand := brandName, capa_ids := capaIds, query_timestamp := none }
  | .ok invs =>
    if invs.isEmpty then
      { success := true, error := none, investigations := [], count := 0
      , brand := brandName, capa_ids := capaIds, query_timestamp := none }
    else
      let enriched := invs.map enrichInvestigation
      { success := true, error := none, investigations := enriched
      , count := enriched.length, brand := brandName, capa_ids := capaIds
      , query_timestamp := some ts }

/-- `Neo4jAgent.get_investigations` on the mock store (no exception). -/
def getInvestigations (brandName : String) (capaIds : List String) (ts : String) : NeoResult :=
  getInvestigationsAgent (.ok (queryInvestigations brandName capaIds)) brandName capaIds ts

/-! ## C6 / C10: `MCPVectorModule` mock vector store

Metadata values are strings or integers; similarity scores are rationals
(`random.uniform(0.6, 0.95)` is modelled by an arbitrary oracle indexed by
the call number, so every theorem holds for every outcome of the RNG).  The
embedding vectors are never inspected by the store operations, so documents
are parametric in the embedding type `E`. -/

/-- A metadata value, as stored in the mock documents. -/
inductive MVal
  | str (s : String)
  | int (n : Int)
deriving DecidableEq

/-- Python `str()` of a metadata value. -/
def MVal.toStr : MVal → String
  | .str s => s
  | .int n => toString n

/-- A document of the mock vector store. -/
structure Doc (E : Type) where
  id : String
  content : String
  metadata : List (String × MVal)
  embedding : E
  score : Option ℚ
  created_at : Option String := none
  updated_at : Option String := none
deriving DecidableEq

/-- Dict lookup in a metadata dict. -/
def mget (md : List (String × MVal)) (k : String) : Option MVal :=
  (md.find? (fun p => p.1 == k)).map (·.2)

/-- One criterion of `vector_search`'s filter loop: the key must be present
in the document metadata; a string criterion matches by case-insensitive
substring containment in `str(metadata[key])`, any other criterion by
equality. -/
def matchOne (md : List (String × MVal)) (k : String) (v : MVal) : Bool :=
  match mget md k with
  | none => false
  | some mv =>
    match v with
    | .str s => pyContains (pyLower mv.toStr) (pyLower s)
    | .int n => mv == MVal.int n

/-- The whole filter of `vector_search`; an empty criteria dict (or `None`,
modelled by `[]`, both falsy) skips filtering. -/
def matchesCriteria (criteria : List (String × MVal)) (md : List (String × MVal)) : Bool :=
  if criteria.isEmpty then true
  else criteria.all (fun kv => matchOne md kv.1 kv.2)

/-- The scan loop of `MCPVectorModule.vector_search`: for each document in
store order that passes the filter, draw one similarity score from the RNG
oracle (`k` counts the `_calculate_similarity` calls made so far) and keep a
copy of the document with its `score` key set whenever the score exceeds the
relevance threshold 0.5. -/
def scanDocs {E : Type} (oracle : Nat → ℚ) (criteria : List (String × MVal)) :
    List (Doc E) → Nat → List (Doc E)
  | [], _ => []
  | d :: ds, k =>
    if matchesCriteria criteria d.metadata then
      let s := oracle k
      if 1 / 2 < s then { d with score := some s } :: scanDocs oracle criteria ds (k + 1)
      else scanDocs oracle criteria ds (k + 1)
    else scanDocs oracle criteria ds k

/-- The sort key `lambda x: x["score"]` (every scanned document has a score;
`getD` supplies a default for totality only). -/
def scoreKey {E : Type} (d : Doc E) : ℚ := d.score.getD 0

/-- Insertion into a list sorted by non-increasing score. -/
def insertDesc {E : Type} (d : Doc E) : List (Doc E) → List (Doc E)
  | [] => [d]
  | e :: t => if scoreKey e ≤ scoreKey d then d :: e :: t else e :: insertDesc d t

/-- `results.sort(key=lambda x: x["score"], reverse=True)`. -/
def sortDesc {E : Type} : List (Doc E) → List (Doc E)
  | [] => []
  | d :: t => insertDesc d (sortDesc t)

/-- `MCPVectorModule.vector_search` over an arbitrary current store. -/
def vectorSearch {E : Type} (oracle : Nat → ℚ) (store : List (Doc E))
    (criteria : List (String × MVal)) (topK : Nat) : List (Doc E) :=
  (sortDesc (scanDocs oracle criteria store 0)).take topK

/-- Zero-pad a number to at least three digits, as Python `f"{n:03d}"`. -/
def pad3 (n : Nat) : String :=
  if n < 10 then "00" ++ toString n
  else if n < 100 then "0" ++ toString n
  else toString n

/-- The document id generated by `add_document`: `f"doc_{len(store)+1:03d}"`. -/
def genDocId {E : Type} (store : List (Doc E)) : String :=
  "doc_" ++ pad3 (store.length + 1)

/-- `MCPVectorModule.add_document`: append a new document (no `score` key,
`created_at` from the clock) and return the new store and generated id. -/
def addDocument {E : Type} (store : List (Doc E)) (content : String) (embedding : E)
    (metadata : List (String × MVal)) (now : String) : List (Doc E) × String :=
  let docId := genDocId store
  (store ++ [{ id := docId, content := content, metadata := metadata
             , embedding := embedding, score := none, created_at := some now }], docId)

/-- `MCPVectorModule.get_document`: the first document with the given id
(`none` models the empty dict returned when no document matches). -/
def getDocument {E : Type} (store : List (Doc E)) (docId : String) : Option (Doc E) :=
  store.find? (fun d => d.id == docId)

/-- `MCPVectorModule.delete_document`: delete the first document with the
given id, reporting whether one was found. -/
def deleteDocument {E : Type} : List (Doc E) → String → List (Doc E) × Bool
  | [], _ => ([], false)
  | d :: t, docId =>
    if d.id == docId then (t, true)
    else
      let r := deleteDocument t docId
      (d :: r.1, r.2)

/-- Python dict assignment: replace the value in place if the key exists,
otherwise append the pair. -/
def dinsertM (md : List (String × MVal)) (k : String) (v : MVal) : List (String × MVal) :=
  match md with
  | [] => [(k, v)]
  | p :: t => if p.1 = k then (k, v) :: t else p :: dinsertM t k v

/-- Python `dict.update`. -/
def dictUpdate (old new : List (String × MVal)) : List (String × MVal) :=
  new.foldl (fun acc kv => dinsertM acc kv.1 kv.2) old

/-- `MCPVectorModule.update_document`: update the first document with the
given id in place (optional new content / metadata / embedding, plus an
`updated_at` stamp), reporting whether one was found. -/
def updateDocument {E : Type} (content : Option String)
    (metadata : Option (List (String × MVal))) (embedding : Option E) (now : String) :
    List (Doc E) → String → List (Doc E) × Bool
  | [], _ => ([], false)
  | d :: t, docId =>
    if d.id == docId then
      ({ d with
          content := content.getD d.content
        , metadata := match metadata with
            | some m => dictUpdate d.metadata m
            | none => d.metadata
        , embedding := embedding.getD d.embedding
        , updated_at := some now } :: t, true)
    else
      let r := updateDocument content metadata embedding now t docId
      (d :: r.1, r.2)

/-- The four hard-coded documents of `_initialize_mock_vector_data`.  Their
embeddings come from an unseeded RNG and are never inspected, so they are
parameters. -/
def initialVectorStore {E : Type} (e1 e2 e3 e4 : E) : List (Doc E) :=
  [ { id := "doc_001"
    , content := "Avino Clinical Trial Phase III Results: The randomized controlled trial evaluated the efficacy and safety of Avinotuzumab in 500 patients with advanced oncological conditions. Primary endpoint showed 68% overall response rate with median progression-free survival of 12.4 months. Common adverse events included fatigue (45%), nausea (32%), and mild infusion reactions (18%). The study demonstrated significant improvement over standard therapy with manageable toxicity profile."
    , metadata :=
        [ ("source", .str "https://documents.company.com/investigations/INV001.pdf")
        , ("page", .int 1)
        , ("document_type", .str "clinical_trial")
        , ("brand", .str "Avino")
        , ("trial_phase", .str "Phase III")
        , ("created_date", .str "2024-01-15") ]
    , embedding := e1, score := some (95 / 100) }
  , { id := "doc_002"
    , content := "Avino Safety Profile Analysis: Long-term safety data from 1,200 patients treated with Avinotuzumab over 24 months follow-up period. Serious adverse events occurred in 12% of patients, with most being reversible upon treatment discontinuation. Hepatotoxicity was observed in 3% of patients, requiring regular liver function monitoring. Overall safety profile supports continued clinical development with appropriate risk mitigation strategies."
    , metadata :=
        [ ("source", .str "https://documents.company.com/investigations/INV002.pdf")
        , ("page", .int 3)
        , ("document_type", .str "safety_report")
        , ("brand", .str "Avino")
        , ("study_type", .str "Safety Analysis")
        , ("created_date", .str "2024-02-10") ]
    , embedding := e2, score := some (89 / 100) }
  , { id := "doc_003"
    , content := "Avino Manufacturing Quality Control: Comprehensive analysis of batch consistency and quality parameters for Avinotuzumab production. All 24 commercial batches met release specifications with consistent potency (98-102% of target), purity (>99%), and stability profiles. Manufacturing process demonstrates robust control with minimal batch-to-batch variation. Quality control testing includes identity, strength, purity, and sterility assessments."
    , metadata :=
        [ ("source", .str "https://documents.company.com/investigations/INV003.pdf")
        , ("page", .int 2)
        , ("document_type", .str "quality_report")
        , ("brand", .str "Avino")
        , ("report_type", .str "Manufacturing QC")
        , ("created_date", .str "2024-03-05") ]
    , embedding := e3, score := some (82 / 100) }
  , { id := "doc_004"
    , content := "Avino Pharmacokinetic Study Results: Population pharmacokinetic analysis in 300 patients showed linear kinetics with dose-proportional exposure. Mean half-life of 14.2 days supports once-weekly dosing regimen. No significant drug-drug interactions identified with common co-medications. Renal impairment patients showed 15% higher exposure, requiring dose adjustments in severe cases. Pharmacokinetic profile supports current dosing recommendations."
    , metadata :=
        [ ("source", .str "https://documents.company.com/clinical/PK_study_2024.pdf")
        , ("page", .int 5)
        , ("document_type", .str "pharmacokinetic_study")
        , ("brand", .str "Avino")
        , ("study_type", .str "Population PK")
        , ("created_date", .str "2024-04-20") ]
    , embedding := e4, score := some (76 / 100) } ]

/-! ## Dates: `datetime.strptime` for the formats the repository uses

CPython's `_strptime` compiles a format into a regex; a field of one-or-two
digits is matched greedily and — because in all formats used here every field
is followed by a separator or the end of the input — backtracking into a
shorter match never produces a different successful parse, so maximal munch
with a range check is an exact model.  `%Y` matches exactly four digits.  A
whitespace in the format matches one or more whitespace characters.  The
`datetime` constructor then validates the calendar day, the year lower bound
and the seconds. -/

/-- A parsed datetime, compared field-lexicographically like Python
`datetime` values. -/
structure DT where
  y : Nat
  mo : Nat
  d : Nat
  hh : Nat
  mi : Nat
  ss : Nat
deriving DecidableEq

/-- One token of a `strptime` format string. -/
inductive FTok
  | year | mon | day | hour | minute | second
  | lit (c : Char)
  | sp
deriving DecidableEq

/-- Value of a decimal digit character. -/
def digitVal (c : Char) : Nat := c.toNat - 48

/-- Greedy match of one or two decimal digits. -/
def munch2 : List Char → Option (Nat × List Char)
  | [] => none
  | [c1] => if c1.isDigit then some (digitVal c1, []) else none
  | c1 :: c2 :: rest =>
    if c1.isDigit then
      if c2.isDigit then some (10 * digitVal c1 + digitVal c2, rest)
      else some (digitVal c1, c2 :: rest)
    else none

/-- Match of exactly four decimal digits (`%Y`). -/
def munch4 : List Char → Option (Nat × List Char)
  | c1 :: c2 :: c3 :: c4 :: rest =>
    if c1.isDigit && c2.isDigit && c3.isDigit && c4.isDigit then
      some (1000 * digitVal c1 + 100 * digitVal c2 + 10 * digitVal c3 + digitVal c4, rest)
    else none
  | _ => none

/-- Run a token list over the input; the whole input must be consumed
(`_strptime` rejects unconverted data).  Field values are range-checked as
the regex alternations do. -/
def runToks : List FTok → List Char → DT → Option DT
  | [], [], acc => some acc
  | [], _ :: _, _ => none
  | t :: ts, cs, acc =>
    match t with
    | .year =>
      match munch4 cs with
      | some (v, rest) => runToks ts rest { acc with y := v }
      | none => none
    | .mon =>
      match munch2 cs with
      | some (v, rest) =>
        if 1 ≤ v ∧ v ≤ 12 then runToks ts rest { acc with mo := v } else none
      | none => none
    | .day =>
      match munch2 cs with
      | some (v, rest) =>
        if 1 ≤ v ∧ v ≤ 31 then runToks ts rest { acc with d := v } else none
      | none => none
    | .hour =>
      match munch2 cs with
      | some (v, rest) =>
        if v ≤ 23 then runToks ts rest { acc with hh := v } else none
      | none => none
    | .minute =>
      match munch2 cs with
      | some (v, rest) =>
        if v ≤ 59 then runToks ts rest { acc with mi := v } else none
      | none => none
    | .second =>
      match munch2 cs with
      | some (v, rest) =>
        if v ≤ 61 then runToks ts rest { acc with ss := v } else none
      | none => none
    | .lit c =>
      match cs with
      | c2 :: rest => if c2 = c then runToks ts rest acc else none
      | [] => none
    | .sp =>
      match cs with
      | c2 :: rest =>
        if c2.isWhitespace then runToks ts (rest.dropWhile Char.isWhitespace) acc
        else none
      | [] => none

/-- Gregorian leap year. -/
def isLeapYear (y : Nat) : Bool := y % 4 == 0 && (y % 100 != 0 || y % 400 == 0)

/-- Length of a month. -/
def daysInMonth (y m : Nat) : Nat :=
  if m = 2 then (if isLeapYear y then 29 else 28)
  else if m = 4 ∨ m = 6 ∨ m = 9 ∨ m = 11 then 30
  else 31

/-- The validation the `datetime` constructor performs on the values
`strptime` extracted (year at least `MINYEAR`, a real calendar day, seconds
below 60 even though the regex admits leap seconds). -/
def ctorOk (t : DT) : Bool :=
  decide (1 ≤ t.y) && decide (t.d ≤ daysInMonth t.y t.mo) && decide (t.ss ≤ 59)

/-- `datetime.strptime(s, fmt)` as an `Option` (a `ValueError` is `none`). -/
def strptime (fmt : List FTok) (s : String) : Option DT :=
  match runToks fmt s.data { y := 1900, mo := 1, d := 1, hh := 0, mi := 0, ss := 0 } with
  | some t => if ctorOk t then some t else none
  | none => none

/-- Format `"%Y-%m-%d"`. -/
def fmtYmd : List FTok := [.year, .lit '-', .mon, .lit '-', .day]

/-- Format `"%m/%d/%Y"`. -/
def fmtMdy : List FTok := [.mon, .lit '/', .day, .lit '/', .year]

/-- Format `"%d/%m/%Y"`. -/
def fmtDmy : List FTok := [.day, .lit '/', .mon, .lit '/', .year]

/-- Format `"%Y/%m/%d"`. -/
def fmtYmdSlash : List FTok := [.year, .lit '/', .mon, .lit '/', .day]

/-- Format `"%m-%d-%Y"`. -/
def fmtMdyDash : List FTok := [.mon, .lit '-', .day, .lit '-', .year]

/-- Format `"%d-%m-%Y"`. -/
def fmtDmyDash : List FTok := [.day, .lit '-', .mon, .lit '-', .year]

/-- Format `"%Y-%m-%d %H:%M:%S"`. -/
def fmtYmdHms : List FTok :=
  fmtYmd ++ [.sp, .hour, .lit ':', .minute, .lit ':', .second]

/-- Format `"%m/%d/%Y %H:%M:%S"`. -/
def fmtMdyHms : List FTok :=
  fmtMdy ++ [.sp, .hour, .lit ':', .minute, .lit ':', .second]

/-- The five formats `CapaAgent._is_within_timeframe` tries, in order. -/
def capaAgentFormats : List (List FTok) :=
  [fmtYmd, fmtMdy, fmtDmy, fmtYmdHms, fmtMdyHms]

/-- The six formats `MCPCapaModule._normalize_date` tries, in order. -/
def normalizeFormats : List (List FTok) :=
  [fmtYmd, fmtMdy, fmtDmy, fmtYmdSlash, fmtMdyDash, fmtDmyDash]

/-- Parse with the first format that succeeds (the `for fmt ... try ... except
ValueError: continue` loop). -/
def firstParse : List (List FTok) → String → Option DT
  | [], _ => none
  | f :: fs, s =>
    match strptime f s with
    | some t => some t
    | none => firstParse fs s

/-- Python `datetime` comparison: field-lexicographic. -/
def dtLe (a b : DT) : Bool :=
  if a.y ≠ b.y then decide (a.y < b.y)
  else if a.mo ≠ b.mo then decide (a.mo < b.mo)
  else if a.d ≠ b.d then decide (a.d < b.d)
  else if a.hh ≠ b.hh then decide (a.hh < b.hh)
  else if a.mi ≠ b.mi then decide (a.mi < b.mi)
  else decide (a.ss ≤ b.ss)

/-! ## C2 / C7 / C8: CAPA records, `CapaAgent` and `MCPCapaModule`

A parsed CAPA record is a Python dict with string keys and values, modelled
as an insertion-order association list with dict update semantics. -/

/-- A CAPA record dict. -/
abbrev RecD := List (String × String)

/-- Dict lookup: value of the first (hence only) binding of a key. -/
def dlookup : RecD → String → Option String
  | [], _ => none
  | p :: t, k => if p.1 = k then some p.2 else dlookup t k

/-- Python `d.get(k, dflt)`. -/
def dget (r : RecD) (k dflt : String) : String := (dlookup r k).getD dflt

/-- Python dict assignment: replace in place, or append a new binding. -/
def dset : RecD → String → String → RecD
  | [], k, v => [(k, v)]
  | p :: t, k, v => if p.1 = k then (k, v) :: t else p :: dset t k v

/-- `CapaAgent._is_within_timeframe`: an empty (or missing, both falsy) date
string is out of the window; otherwise the stripped string is parsed with the
first of the five supported formats that succeeds and the parsed datetime is
compared against the cutoff; an unparseable string is out of the window. -/
def isWithinTimeframe (dateStr : String) (cutoff : DT) : Bool :=
  if dateStr = "" then false
  else
    match firstParse capaAgentFormats (pyStrip dateStr) with
    | some t => dtLe cutoff t
    | none => false

/-- The filter condition of `CapaAgent.process_query`: status `OPEN`
case-insensitively and date within the window. -/
def capaOpenPred (cutoff : DT) (capa : RecD) : Bool :=
  (pyUpper (dget capa "status" "") == "OPEN") &&
    isWithinTimeframe (dget capa "date" "") cutoff

/-- The dict returned by `CapaAgent.process_query`; keys only present on the
success path are `Option`s. -/
structure CapaQueryResult where
  success : Bool
  error : Option String
  count : Nat
  details : List RecD
  query_processed : Option String
  analysis_date : Option String
deriving DecidableEq

/-- `CapaAgent.process_query`.  `readResult` is the outcome of the guarded
body up to and including the MCP read: `.error e` models an exception raised
inside the `try` block, `.ok rs` the parsed record list.  `oneYearAgo` is
`datetime.now() - timedelta(days=365)` taken from the clock, and `query` /
`analysisDate` fill the success dict's echo fields. -/
def processQuery (readResult : Except String (List RecD)) (oneYearAgo : DT)
    (query analysisDate : String) : CapaQueryResult :=
  match readResult with
  | .error e =>
    { success := false, error := some e, count := 0, details := []
    , query_processed := none, analysis_date := none }
  | .ok capaData =>
    if capaData.isEmpty then
      { success := false, error := some "No CAPA data found or file not accessible"
      , count := 0, details := [], query_processed := none, analysis_date := none }
    else
      let openCapas := capaData.foldl
        (fun acc capa => if capaOpenPred oneYearAgo capa then acc ++ [capa] else acc) []
      { success := true, error := none, count := openCapas.length, details := openCapas
      , query_processed := some query, analysis_date := some analysisDate }

/-- Zero-pad to two digits (`strftime` field). -/
def fmt2 (n : Nat) : String := if n < 10 then "0" ++ toString n else toString n

/-- Zero-pad to four digits (`strftime` `%Y`). -/
def fmt4 (n : Nat) : String :=
  if n < 10 then "000" ++ toString n
  else if n < 100 then "00" ++ toString n
  else if n < 1000 then "0" ++ toString n
  else toString n

/-- `strftime('%Y-%m-%d')`. -/
def fmtDate (t : DT) : String := fmt4 t.y ++ "-" ++ fmt2 t.mo ++ "-" ++ fmt2 t.d

/-- `strftime('%Y%m%d_%H%M%S')`, used for generated CAPA ids. -/
def fmtTimestamp (t : DT) : String :=
  fmt4 t.y ++ fmt2 t.mo ++ fmt2 t.d ++ "_" ++ fmt2 t.hh ++ fmt2 t.mi ++ fmt2 t.ss

/-- The valid statuses of `MCPCapaModule._validate_capa_record`. -/
def validStatuses : List String := ["OPEN", "CLOSED", "IN_PROGRESS", "PENDING", "CANCELLED"]

/-- Default value for a missing or empty required field (`now` is the clock). -/
def defaultFieldValue (now : DT) : String → String
  | "capa_id" => "CAPA_" ++ fmtTimestamp now
  | "title" => "Untitled CAPA"
  | "status" => "UNKNOWN"
  | "date" => fmtDate now
  | _ => ""

/-- One step of the required-field loop of `_validate_capa_record`. -/
def fillField (now : DT) (r : RecD) (f : String) : RecD :=
  if dget r f "" = "" then dset r f (defaultFieldValue now f) else r

/-- `MCPCapaModule._normalize_date`: reformat via the first of the six
formats that parses, otherwise return the string unchanged. -/
def normalizeDate (s : String) : String :=
  match firstParse normalizeFormats (pyStrip s) with
  | some t => fmtDate t
  | none => s

/-- The required-fields loop of `_validate_capa_record`. -/
def fillRequired (now : DT) (r : RecD) : RecD :=
  ["capa_id", "title", "status", "date"].foldl (fillField now) r

/-- The status standardization of `_validate_capa_record`, branching exactly
as the source does on the uppercased current status. -/
def applyStatusStd (r1 : RecD) : RecD :=
  let status := pyUpper (dget r1 "status" "")
  if validStatuses.contains status then dset r1 "status" status
  else if pyContains status "PROGRESS" || pyContains status "WORKING" then
    dset r1 "status" "IN_PROGRESS"
  else if pyContains status "COMPLETE" || pyContains status "DONE" then
    dset r1 "status" "CLOSED"
  else dset r1 "status" "OPEN"

/-- The date normalization of `_validate_capa_record`. -/
def applyDateNorm (r2 : RecD) : RecD :=
  let dateValue := dget r2 "date" ""
  if dateValue = "" then r2 else dset r2 "date" (normalizeDate dateValue)

/-- The region default of `_validate_capa_record`. -/
def applyRegionDefault (r3 : RecD) : RecD :=
  if dget r3 "region" "" = "" then dset r3 "region" "Global" else r3

/-- The priority default of `_validate_capa_record`. -/
def applyPriorityDefault (r4 : RecD) : RecD :=
  if dget r4 "priority" "" = "" then dset r4 "priority" "Medium" else r4

/-- `MCPCapaModule._validate_capa_record`: fill missing required fields,
standardize the status, normalize the date, default region and priority —
the five sequential phases of the source, composed. -/
def validateCapaRecord (now : DT) (r : RecD) : RecD :=
  applyPriorityDefault (applyRegionDefault (applyDateNorm (applyStatusStd (fillRequired now r))))

/-- The default headers of `MCPCapaModule.read_capa_data`. -/
def defaultHeaders : List String :=
  ["capa_id", "title", "region", "status", "date", "priority", "assigned_to"]

/-- Build a record dict from headers and (already padded) values; duplicate
headers overwrite earlier bindings, extra values are ignored, like the
Python loop over `enumerate(headers)`. -/
def buildRecord : List String → List String → RecD → RecD
  | [], _, r => r
  | h :: hs, v :: vs, r => buildRecord hs vs (dset r h v)
  | h :: hs, [], r => buildRecord hs [] (dset r h "")

/-- `MCPCapaModule.read_capa_data` on file content `content` (a missing file
or a read exception yields `[]` upstream and is not modelled here): strip,
split into lines, detect a header line, then parse, pad, build and validate
each non-blank line into a record. -/
def readCapaData (content : String) (now : DT) : List RecD :=
  let c := pyStrip content
  if c = "" then []
  else
    let lines := splitOnChar '\n' c
    let headerInfo :=
      match lines with
      | [] => (defaultHeaders, ([] : List String))
      | l0 :: rest =>
        if pyContains l0 "CAPA_ID" || pyContains (pyLower l0) "capa_id" then
          ((splitOnChar '\t' l0).map (fun h => pyLower (pyStrip h)), rest)
        else (defaultHeaders, lines)
    let headers := headerInfo.1
    headerInfo.2.foldl
      (fun acc line =>
        if pyStrip line = "" then acc
        else
          let values := (splitOnChar '\t' line).map pyStrip
          let padded := values ++ List.replicate (headers.length - values.length) ""
          acc ++ [validateCapaRecord now (buildRecord headers padded [])])
      []

/-- The invariant C8 claims for every record `read_capa_data` returns. -/
def capaInvariant (r : RecD) : Prop :=
  dget r "capa_id" "" ≠ "" ∧ dget r "title" "" ≠ "" ∧ dget r "date" "" ≠ "" ∧
    validStatuses.contains (dget r "status" "") = true ∧
    dget r "region" "" ≠ "" ∧ dget r "priority" "" ≠ ""

/-- The status mapping as the claim words it: recognized statuses are kept
(uppercased), unrecognized ones fall back by substring. -/
def standardizeStatus (s : String) : String :=
  let u := pyUpper s
  if validStatuses.contains u then u
  else if pyContains u "PROGRESS" || pyContains u "WORKING" then "IN_PROGRESS"
  else if pyContains u "COMPLETE" || pyContains u "DONE" then "CLOSED"
  else "OPEN"

/-! ## C7 / C4: `VectorAgent.search_clinical_trials` and
`MultiAgentWorkflow.consolidate_results` -/

/-- The dict returned by `VectorAgent.search_clinical_trials`; the
`search_results` and `query` keys only exist on the non-empty success path,
`error` only on the failure path. -/
structure VectorAgentResult (E : Type) where
  success : Bool
  error : Option String
  summary : String
  brand : String
  pdf_links : List String
  documents_found : Nat
  search_results : Option (List (Doc E))
  query : Option String
deriving DecidableEq

/-- `VectorAgent._generate_summary`: keep the pieces whose score exceeds 0.7;
with none left return the fixed no-confidence sentence, otherwise hand the
double-newline-joined contents and the brand to the Gemini summarizer `gen`
(an abstract total function, so its own `try` never fires). -/
def generateSummaryAgent {E : Type} (gen : String → String → String)
    (results : List (Doc E)) (brandName : String) : String :=
  let pieces := results.filter (fun d => (7 : ℚ) / 10 < scoreKey d)
  if pieces.isEmpty then
    "No high-confidence clinical trial data found for brand " ++ brandName ++ "."
  else gen (String.intercalate "\n\n" (pieces.map (·.content))) brandName

/-- `VectorAgent.search_clinical_trials`.  `queryEmbedding` is the value
`generate_embedding` returned (`none` models `None`); a falsy embedding
(`None` or the empty list) raises `ValueError("Failed to generate query
embedding")`, which the surrounding `try` catches into the failure dict.  The
vector search runs over the current store with filter `{"brand": brand}` and
`top_k=5`, scored by the RNG oracle. -/
def searchClinicalTrials (E : Type) (queryEmbedding : Option (List ℚ))
    (oracle : Nat → ℚ) (store : List (Doc E)) (gen : String → String → String)
    (brandName : String) (pdfLinks : List String) : VectorAgentResult E :=
  let searchQuery := "clinical trial summary for brand " ++ brandName
  match queryEmbedding with
  | none =>
    { success := false, error := some "Failed to generate query embedding"
    , summary := "", brand := brandName, pdf_links := pdfLinks
    , documents_found := 0, search_results := none, query := none }
  | some q =>
    if q.isEmpty then
      { success := false, error := some "Failed to generate query embedding"
      , summary := "", brand := brandName, pdf_links := pdfLinks
      , documents_found := 0, search_results := none, query := none }
    else
      let results := vectorSearch oracle store [("brand", .str brandName)] 5
      if results.isEmpty then
        { success := true, error := none, summary := "", brand := brandName
        , pdf_links := pdfLinks, documents_found := 0
        , search_results := none, query := none }
      else
        { success := true, error := none
        , summary := generateSummaryAgent gen results brandName
        , brand := brandName, pdf_links := pdfLinks
        , documents_found := results.length
        , search_results := some results, query := some searchQuery }

/-- The CAPA part of `consolidate_results`.  A missing `capa_result` key
(`none`) yields the empty dict, whose `success` is falsy and whose `error`
defaults to `Unknown error`. -/
def capaSummaryPart (r : Option CapaQueryResult) : String :=
  match r with
  | some cr =>
    if cr.success then
      "**CAPA Analysis:** Found " ++ toString cr.count ++ " open CAPAs in the last year."
    else "**CAPA Analysis:** Error - " ++ cr.error.getD "Unknown error"
  | none => "**CAPA Analysis:** Error - Unknown error"

/-- The investigations part of `consolidate_results`. -/
def invSummaryPart (r : Option NeoResult) : String :=
  match r with
  | some nr =>
    if nr.success then
      "**Investigations:** Found " ++ toString nr.investigations.length ++
        " investigations for brand Avino."
    else "**Investigations:** Error - " ++ nr.error.getD "Unknown error"
  | none => "**Investigations:** Error - Unknown error"

/-- The clinical-trials part of `consolidate_results`: on success a truthy
(non-empty) summary is inserted, an empty one is replaced by the fixed
no-data sentence. -/
def ctSummaryPart {E : Type} (r : Option (VectorAgentResult E)) : String :=
  match r with
  | some vr =>
    if vr.success then
      if vr.summary = "" then "**Clinical Trials:** No clinical trial data found for brand Avino."
      else "**Clinical Trials:** " ++ vr.summary
    else "**Clinical Trials:** Error - " ++ vr.error.getD "Unknown error"
  | none => "**Clinical Trials:** Error - Unknown error"

/-- The `summary_parts` list built by `consolidate_results`, in append
order. -/
def consolidateParts (E : Type) (capaR : Option CapaQueryResult)
    (neoR : Option NeoResult) (vecR : Option (VectorAgentResult E)) : List String :=
  [capaSummaryPart capaR, invSummaryPart neoR, ctSummaryPart vecR]

/-- The final summary set by `consolidate_results`: the parts joined by
newlines, passed to `OrchestratorAgent.generate_final_summary` (the abstract
total function `gen`). -/
def consolidateFinalSummary (E : Type) (gen : String → String)
    (capaR : Option CapaQueryResult) (neoR : Option NeoResult)
    (vecR : Option (VectorAgentResult E)) : String :=
  gen (String.intercalate "\n" (consolidateParts E capaR neoR vecR))

/-- The clinical-trials part exactly as claim C4 words it: a successful
vector result always has its summary inserted after the heading. -/
def ctSummaryPartClaimed {E : Type} (r : Option (VectorAgentResult E)) : String :=
  match r with
  | some vr =>
    if vr.success then "**Clinical Trials:** " ++ vr.summary
    else "**Clinical Trials:** Error - " ++ vr.error.getD "Unknown error"
  | none => "**Clinical Trials:** Error - Unknown error"

/-! ## C9: `EmbeddingsHandler._generate_mock_embedding`

Float arithmetic is modelled over `ℝ`.  `np.random.seed` / `np.random.normal`
are modelled by an abstract RNG: a state type `R`, a seeding function
`mtInit` and a sampler `g` drawing one value while threading the state.  MD5
is the abstract function `md5hex`; the comparison of two calls shows the
result depends only on the text, never on the incoming global RNG state,
because the seed overwrites that state. -/

/-- Value of a hexadecimal digit, `none` for any other character. -/
def hexDigitVal (c : Char) : Option Nat :=
  if '0' ≤ c ∧ c ≤ '9' then some (c.toNat - 48)
  else if 'a' ≤ c ∧ c ≤ 'f' then some (c.toNat - 87)
  else if 'A' ≤ c ∧ c ≤ 'F' then some (c.toNat - 55)
  else none

/-- Python `int(s, 16)` on plain hex strings (which is all an MD5 hexdigest
prefix can be); `none` models the `ValueError` an ill-formed string raises,
which the handler's `except` answers with the zero vector. -/
def hexToNat (s : String) : Option Nat :=
  if s = "" then none
  else
    s.data.foldl
      (fun acc c =>
        match acc, hexDigitVal c with
        | some a, some d => some (16 * a + d)
        | _, _ => none)
      (some 0)

/-- Sum of squares of a vector, so that `np.linalg.norm v = √(sumSq v)`. -/
def sumSq (v : List ℝ) : ℝ := v.foldr (fun x a => x * x + a) 0

/-- `np.random.normal(0, 1, n)`: draw `n` samples, threading the RNG state. -/
def drawGaussians {R : Type} (g : R → ℝ × R) : Nat → R → List ℝ
  | 0, _ => []
  | n + 1, s => (g s).1 :: drawGaussians g n (g s).2

/-- The normalization step: divide by the Euclidean norm when it is
positive, otherwise leave the vector unchanged. -/
noncomputable def normalizeVec (v : List ℝ) : List ℝ :=
  if 0 < Real.sqrt (sumSq v) then v.map (fun x => x / Real.sqrt (sumSq v)) else v

/-- `EmbeddingsHandler._generate_mock_embedding` at the default dimension
768: seed the RNG with the first eight hex digits of the MD5 of the text
(discarding the incoming state `rngState`), draw 768 Gaussians and
normalize; an error falls back to the all-zero vector. -/
noncomputable def mockEmbedding {R : Type} (mtInit : Nat → R) (g : R → ℝ × R)
    (md5hex : String → String) (_rngState : R) (text : String) : List ℝ :=
  match hexToNat (pyTake (md5hex text) 8) with
  | none => List.replicate 768 0
  | some seed => normalizeVec (drawGaussians g 768 (mtInit seed))

/-- A successful CAPA agent result with two open CAPAs. -/
def sampleCapaSuccess : CapaQueryResult :=
  { success := true, error := none, count := 2, details := []
  , query_processed := some "q", analysis_date := some "d" }

/-- A successful Neo4j agent result with no investigations. -/
def sampleNeoSuccess : NeoResult :=
  { success := true, error := none, investigations := [], count := 0
  , brand := "Avino", capa_ids := [], query_timestamp := none }

/-- A successful vector agent result whose summary is the empty string. -/
def sampleVecEmptySummary : VectorAgentResult Unit :=
  { success := true, error := none, summary := "", brand := "Avino"
  , pdf_links := [], documents_found := 0, search_results := none, query := none }

/-- The store reached by deleting `doc_001` from the initial mock store and
then adding a new document — the shortest delete/add sequence on which the
generated id collides with an existing one. -/
def collisionStore : List (Doc Unit) × String :=
  addDocument (deleteDocument (initialVectorStore () () () ()) "doc_001").1
    "Fresh stability report" () [] "2025-01-01T00:00:00"

/-! ## Theorems -/

/-- A Python loop of shape `for x in l: if p(x): out.append(x)` is a filter. -/
theorem foldl_append_filter {α : Type} (p : α → Bool) :
    ∀ (l acc : List α),
      l.foldl (fun r x => if p x then r ++ [x] else r) acc = acc ++ l.filter p := by
  intro l
  induction l with
  | nil => intro acc; simp
  | cons x t ih =>
    intro acc
    by_cases hx : p x
    · simp [hx, ih, List.filter_cons]
    · simp [hx, ih, List.filter_cons]

/-- The body of the `query_investigations` loop, rewritten from the two
skip conditions to one positive membership condition. -/
theorem queryInvestigations_body_eq (brandName : String) (capaIds : List String)
    (results : List Inv) (inv : Inv) :
    (if (pyLower inv.brand == pyLower brandName) = false then results
     else if decide (capaIds ≠ []) && (capaIds.contains inv.capa_id) = false then results
     else results ++ [inv]) =
    (if (pyLower inv.brand == pyLower brandName) &&
        (capaIds.isEmpty || capaIds.contains inv.capa_id) then results ++ [inv]
     else results) := by
  by_cases hb : (pyLower inv.brand == pyLower brandName) = true
  · by_cases he : capaIds = []
    · subst he; simp [hb]
    · by_cases hc : capaIds.contains inv.capa_id
      · simp [hb, he, hc]
      · simp [hb, he, hc, List.isEmpty_iff]
  · simp only [Bool.not_eq_true] at hb
    simp [hb]

/-- C1: a run of the compiled workflow executes exactly the five nodes
orchestrator, capa_agent, neo4j_agent, vector_agent, consolidate, each exactly
once and in that fixed order, for every state type, every input state (hence
every input query) and every outcome of the individual agent steps; the
builder installed no conditional edge, and the trace repeats no node (no
cycle is ever taken). -/
theorem workflow_trace_fixed (S : Type) (f : String → S → S) (s₀ : S) :
    execTrace f 6 entryPoint s₀ =
      ["orchestrator", "capa_agent", "neo4j_agent", "vector_agent", "consolidate"] ∧
    (execTrace f 6 entryPoint s₀).Nodup ∧
    conditionalEdgeOps = [] := by
  refine ⟨rfl, ?_, rfl⟩
  show List.Nodup ["orchestrator", "capa_agent", "neo4j_agent", "vector_agent", "consolidate"]
  decide

/-- C5: `MCPNeo4jModule.query_investigations` returns exactly the mock
investigation records whose brand equals the given name case-insensitively
and — when a non-empty CAPA-ID list is supplied — whose `capa_id` is a member
of that list, preserving store order (the result is the corresponding filter
of the store, hence a sublist of it); `Neo4jAgent.get_investigations` then
enriches each returned record with the two in-memory lookups: CAPA details by
`capa_id` and batch info by `batch_number`. -/
theorem neo4j_query_filter_and_enrich (brandName : String) (capaIds : List String)
    (ts : String) :
    queryInvestigations brandName capaIds =
      mockInvestigations.filter (fun inv =>
        (pyLower inv.brand == pyLower brandName) &&
        (capaIds.isEmpty || capaIds.contains inv.capa_id)) ∧
    List.Sublist (queryInvestigations brandName capaIds) mockInvestigations ∧
    (getInvestigations brandName capaIds ts).investigations =
      (queryInvestigations brandName capaIds).map enrichInvestigation ∧
    (queryInvestigations brandName capaIds).Forall (fun inv =>
      (enrichInvestigation inv).capa_details = some (getCapaDetails inv.capa_id) ∧
      (enrichInvestigation inv).batch_info = some (getBatchInfo inv.batch_number)) := by
  have hq : queryInvestigations brandName capaIds =
      mockInvestigations.filter (fun inv =>
        (pyLower inv.brand == pyLower brandName) &&
        (capaIds.isEmpty || capaIds.contains inv.capa_id)) := by
    unfold queryInvestigations
    have hbody :
        (fun (results : List Inv) (inv : Inv) =>
          if (pyLower inv.brand == pyLower brandName) = false then results
          else if decide (capaIds ≠ []) && (capaIds.contains inv.capa_id) = false then results
          else results ++ [inv]) =
        (fun (results : List Inv) (inv : Inv) =>
          if (pyLower inv.brand == pyLower brandName) &&
              (capaIds.isEmpty || capaIds.contains inv.capa_id) then results ++ [inv]
          else results) := by
      funext results inv
      exact queryInvestigations_body_eq brandName capaIds results inv
    rw [hbody, foldl_append_filter]
    simp
  refine ⟨hq, ?_, ?_, ?_⟩
  · rw [hq]; exact List.filter_sublist _
  · unfold getInvestigations getInvestigationsAgent
    cases hemp : (queryInvestigations brandName capaIds).isEmpty
    · simp [hemp]
    · simp [hemp, List.isEmpty_iff.mp hemp]
  · rw [List.forall_iff_forall_mem]
    have hall : ∀ inv ∈ mockInvestigations,
        (enrichInvestigation inv).capa_details = some (getCapaDetails inv.capa_id) ∧
        (enrichInvestigation inv).batch_info = some (getBatchInfo inv.batch_number) := by
      decide
    intro inv hinv
    exact hall inv (List.mem_of_mem_filter (hq ▸ hinv))

/-- A nonempty left factor makes a string append nonempty. -/
theorem strAppend_ne_left (a b : String) (ha : a ≠ "") : a ++ b ≠ "" := by
  intro h
  apply ha
  have hd := congrArg String.data h
  simp [String.data_append] at hd
  cases hd
  ext
  simp_all

/-- A nonempty right factor makes a string append nonempty. -/
theorem strAppend_ne_right (a b : String) (hb : b ≠ "") : a ++ b ≠ "" := by
  intro h
  apply hb
  have hd := congrArg String.data h
  simp [String.data_append] at hd
  cases hd
  ext
  simp_all

/-- Looking up the key just assigned. -/
theorem dlookup_dset_self : ∀ (r : RecD) (k v : String), dlookup (dset r k v) k = some v := by
  intro r
  induction r with
  | nil => intro k v; simp [dset, dlookup]
  | cons p t ih =>
    intro k v
    by_cases h : p.1 = k
    · simp [dset, dlookup, h]
    · simp [dset, dlookup, h, ih]

/-- Assignments leave other keys untouched. -/
theorem dlookup_dset_other : ∀ (r : RecD) (k k' v : String), k' ≠ k →
    dlookup (dset r k v) k' = dlookup r k' := by
  intro r
  induction r with
  | nil =>
    intro k k' v h
    have hk : ¬ (k = k') := fun hh => h hh.symm
    simp [dset, dlookup, hk]
  | cons p t ih =>
    intro k k' v h
    have hk : ¬ (k = k') := fun hh => h hh.symm
    rw [dset]
    by_cases hp : p.1 = k
    · have hp2 : ¬ (p.1 = k') := by rw [hp]; exact hk
      simp [dlookup, hp, hp2, hk]
    · by_cases hp2 : p.1 = k'
      · simp [dlookup, hp, hp2, h]
      · simp [dlookup, hp, hp2, ih k k' v h]

/-- `dget` of the key just assigned. -/
theorem dget_dset_self (r : RecD) (k v : String) : dget (dset r k v) k "" = v := by
  rw [dget, dlookup_dset_self]
  rfl

/-- `dget` of a key distinct from an assigned one. -/
theorem dget_dset_other (r : RecD) (k k' v : String) (h : k' ≠ k) :
    dget (dset r k v) k' "" = dget r k' "" := by
  rw [dget, dlookup_dset_other r k k' v h]
  rfl

/-- Effect of one required-field fill on its own field. -/
theorem dget_fillField_self (now : DT) (r : RecD) (f : String) :
    dget (fillField now r f) f "" =
      if dget r f "" = "" then defaultFieldValue now f else dget r f "" := by
  rw [fillField]
  by_cases h : dget r f "" = ""
  · rw [if_pos h, if_pos h, dget_dset_self]
  · rw [if_neg h, if_neg h]

/-- Effect of one required-field fill on a different field. -/
theorem dget_fillField_other (now : DT) (r : RecD) (f k : String) (h : k ≠ f) :
    dget (fillField now r f) k "" = dget r k "" := by
  rw [fillField]
  by_cases hf : dget r f "" = ""
  · rw [if_pos hf, dget_dset_other r f k _ h]
  · rw [if_neg hf]

/-- `fillRequired` on `capa_id`. -/
theorem dget_fillRequired_capa_id (now : DT) (r : RecD) :
    dget (fillRequired now r) "capa_id" "" =
      if dget r "capa_id" "" = "" then "CAPA_" ++ fmtTimestamp now
      else dget r "capa_id" "" := by
  simp only [fillRequired, List.foldl]
  rw [dget_fillField_other now _ "date" _ (by decide),
    dget_fillField_other now _ "status" _ (by decide),
    dget_fillField_other now _ "title" _ (by decide),
    dget_fillField_self]
  rfl

/-- `fillRequired` on `title`. -/
theorem dget_fillRequired_title (now : DT) (r : RecD) :
    dget (fillRequired now r) "title" "" =
      if dget r "title" "" = "" then "Untitled CAPA" else dget r "title" "" := by
  simp only [fillRequired, List.foldl]
  rw [dget_fillField_other now _ "date" _ (by decide),
    dget_fillField_other now _ "status" _ (by decide),
    dget_fillField_self,
    dget_fillField_other now _ "capa_id" _ (by decide)]
  rfl

/-- `fillRequired` on `status`. -/
theorem dget_fillRequired_status (now : DT) (r : RecD) :
    dget (fillRequired now r) "status" "" =
      if dget r "status" "" = "" then "UNKNOWN" else dget r "status" "" := by
  simp only [fillRequired, List.foldl]
  rw [dget_fillField_other now _ "date" _ (by decide),
    dget_fillField_self,
    dget_fillField_other now _ "title" _ (by decide),
    dget_fillField_other now _ "capa_id" _ (by decide)]
  rfl

/-- `fillRequired` on `date`. -/
theorem dget_fillRequired_date (now : DT) (r : RecD) :
    dget (fillRequired now r) "date" "" =
      if dget r "date" "" = "" then fmtDate now else dget r "date" "" := by
  simp only [fillRequired, List.foldl]
  rw [dget_fillField_self,
    dget_fillField_other now _ "status" _ (by decide),
    dget_fillField_other now _ "title" _ (by decide),
    dget_fillField_other now _ "capa_id" _ (by decide)]
  rfl

/-- `fillRequired` on any non-required field. -/
theorem dget_fillRequired_other (now : DT) (r : RecD) (k : String)
    (h1 : k ≠ "capa_id") (h2 : k ≠ "title") (h3 : k ≠ "status") (h4 : k ≠ "date") :
    dget (fillRequired now r) k "" = dget r k "" := by
  simp only [fillRequired, List.foldl]
  rw [dget_fillField_other now _ "date" _ h4,
    dget_fillField_other now _ "status" _ h3,
    dget_fillField_other now _ "title" _ h2,
    dget_fillField_other now _ "capa_id" _ h1]

/-- The status standardization writes exactly `standardizeStatus` of the
current status. -/
theorem dget_applyStatusStd_status (r1 : RecD) :
    dget (applyStatusStd r1) "status" "" = standardizeStatus (dget r1 "status" "") := by
  rw [applyStatusStd, standardizeStatus]
  split_ifs <;> rw [dget_dset_self]

/-- The status standardization leaves other keys untouched. -/
theorem dget_applyStatusStd_other (r1 : RecD) (k : String) (h : k ≠ "status") :
    dget (applyStatusStd r1) k "" = dget r1 k "" := by
  rw [applyStatusStd]
  split_ifs <;> rw [dget_dset_other _ _ _ _ h]

/-- The date normalization on `date`. -/
theorem dget_applyDateNorm_date (r2 : RecD) :
    dget (applyDateNorm r2) "date" "" =
      if dget r2 "date" "" = "" then "" else normalizeDate (dget r2 "date" "") := by
  rw [applyDateNorm]
  by_cases h : dget r2 "date" "" = ""
  · rw [if_pos h, if_pos h, h]
  · rw [if_neg h, if_neg h, dget_dset_self]

/-- The date normalization leaves other keys untouched. -/
theorem dget_applyDateNorm_other (r2 : RecD) (k : String) (h : k ≠ "date") :
    dget (applyDateNorm r2) k "" = dget r2 k "" := by
  rw [applyDateNorm]
  split_ifs with hc
  · rfl
  · rw [dget_dset_other _ _ _ _ h]

/-- The region default on `region`. -/
theorem dget_applyRegionDefault_region (r3 : RecD) :
    dget (applyRegionDefault r3) "region" "" =
      if dget r3 "region" "" = "" then "Global" else dget r3 "region" "" := by
  rw [applyRegionDefault]
  split_ifs with hc
  · rw [dget_dset_self]
  · rfl

/-- The region default leaves other keys untouched. -/
theorem dget_applyRegionDefault_other (r3 : RecD) (k : String) (h : k ≠ "region") :
    dget (applyRegionDefault r3) k "" = dget r3 k "" := by
  rw [applyRegionDefault]
  split_ifs with hc
  · rw [dget_dset_other _ _ _ _ h]
  · rfl

/-- The priority default on `priority`. -/
theorem dget_applyPriorityDefault_priority (r4 : RecD) :
    dget (applyPriorityDefault r4) "priority" "" =
      if dget r4 "priority" "" = "" then "Medium" else dget r4 "priority" "" := by
  rw [applyPriorityDefault]
  split_ifs with hc
  · rw [dget_dset_self]
  · rfl

/-- The priority default leaves other keys untouched. -/
theorem dget_applyPriorityDefault_other (r4 : RecD) (k : String) (h : k ≠ "priority") :
    dget (applyPriorityDefault r4) k "" = dget r4 k "" := by
  rw [applyPriorityDefault]
  split_ifs with hc
  · rw [dget_dset_other _ _ _ _ h]
  · rfl

/-- A formatted date is never the empty string. -/
theorem fmtDate_ne_empty (t : DT) : fmtDate t ≠ "" := by
  rw [fmtDate]
  exact strAppend_ne_left _ _ (strAppend_ne_right _ _ (by decide))

/-- `_normalize_date` of a nonempty string is nonempty: either it reformats
a parsed date or returns the input unchanged. -/
theorem normalizeDate_ne_empty (s : String) (hs : s ≠ "") : normalizeDate s ≠ "" := by
  rw [normalizeDate]
  cases h : firstParse normalizeFormats (pyStrip s) with
  | none => exact hs
  | some t => exact fmtDate_ne_empty t

/-- `standardizeStatus` always lands in the valid status list. -/
theorem standardizeStatus_mem (s : String) :
    validStatuses.contains (standardizeStatus s) = true := by
  rw [standardizeStatus]
  split_ifs with h1 h2 h3
  · exact h1
  · decide
  · decide
  · decide

/-- The status field of a validated record, as the claim words it: a missing
or empty status is first defaulted to `UNKNOWN`, then standardized. -/
theorem validate_status_eq (now : DT) (r : RecD) :
    dget (validateCapaRecord now r) "status" "" =
      standardizeStatus (if dget r "status" "" = "" then "UNKNOWN" else dget r "status" "") := by
  rw [validateCapaRecord,
    dget_applyPriorityDefault_other _ _ (by decide),
    dget_applyRegionDefault_other _ _ (by decide),
    dget_applyDateNorm_other _ _ (by decide),
    dget_applyStatusStd_status,
    dget_fillRequired_status]

/-- The region field of a validated record: defaulted to `Global` exactly
when absent or empty. -/
theorem validate_region_eq (now : DT) (r : RecD) :
    dget (validateCapaRecord now r) "region" "" =
      if dget r "region" "" = "" then "Global" else dget r "region" "" := by
  rw [validateCapaRecord,
    dget_applyPriorityDefault_other _ _ (by decide),
    dget_applyRegionDefault_region]
  have h3 : dget (applyDateNorm (applyStatusStd (fillRequired now r))) "region" "" =
      dget r "region" "" := by
    rw [dget_applyDateNorm_other _ _ (by decide),
      dget_applyStatusStd_other _ _ (by decide),
      dget_fillRequired_other now r "region" (by decide) (by decide) (by decide) (by decide)]
  rw [h3]

/-- The priority field of a validated record: defaulted to `Medium` exactly
when absent or empty. -/
theorem validate_priority_eq (now : DT) (r : RecD) :
    dget (validateCapaRecord now r) "priority" "" =
      if dget r "priority" "" = "" then "Medium" else dget r "priority" "" := by
  rw [validateCapaRecord, dget_applyPriorityDefault_priority]
  have h4 : dget (applyRegionDefault (applyDateNorm (applyStatusStd (fillRequired now r))))
      "priority" "" = dget r "priority" "" := by
    rw [dget_applyRegionDefault_other _ _ (by decide),
      dget_applyDateNorm_other _ _ (by decide),
      dget_applyStatusStd_other _ _ (by decide),
      dget_fillRequired_other now r "priority" (by decide) (by decide) (by decide) (by decide)]
  rw [h4]

/-- Every validated record satisfies the C8 invariant. -/
theorem validateCapaRecord_invariant (now : DT) (r : RecD) :
    capaInvariant (validateCapaRecord now r) := by
  refine ⟨?_, ?_, ?_, ?_, ?_, ?_⟩
  · -- capa_id is nonempty
    rw [validateCapaRecord,
      dget_applyPriorityDefault_other _ _ (by decide),
      dget_applyRegionDefault_other _ _ (by decide),
      dget_applyDateNorm_other _ _ (by decide),
      dget_applyStatusStd_other _ _ (by decide),
      dget_fillRequired_capa_id]
    split_ifs with h
    · exact strAppend_ne_left _ _ (by decide)
    · exact h
  · -- title is nonempty
    rw [validateCapaRecord,
      dget_applyPriorityDefault_other _ _ (by decide),
      dget_applyRegionDefault_other _ _ (by decide),
      dget_applyDateNorm_other _ _ (by decide),
      dget_applyStatusStd_other _ _ (by decide),
      dget_fillRequired_title]
    split_ifs with h
    · decide
    · exact h
  · -- date is nonempty
    rw [validateCapaRecord,
      dget_applyPriorityDefault_other _ _ (by decide),
      dget_applyRegionDefault_other _ _ (by decide),
      dget_applyDateNorm_date,
      dget_applyStatusStd_other _ _ (by decide),
      dget_fillRequired_date]
    by_cases h : dget r "date" "" = ""
    · rw [if_pos h, if_neg (fmtDate_ne_empty now)]
      exact normalizeDate_ne_empty _ (fmtDate_ne_empty now)
    · rw [if_neg h, if_neg h]
      exact normalizeDate_ne_empty _ h
  · -- status lies in the valid list
    rw [validate_status_eq]
    exact standardizeStatus_mem _
  · -- region is nonempty
    rw [validate_region_eq]
    split_ifs with h
    · decide
    · exact h
  · -- priority is nonempty
    rw [validate_priority_eq]
    split_ifs with h
    · decide
    · exact h

/-- Members of a conditional append-fold come from the seed or from `g`. -/
theorem mem_foldl_cond_append {α β : Type} (P : α → Prop) [DecidablePred P] (g : α → β) :
    ∀ (l : List α) (init : List β) (x : β),
      x ∈ l.foldl (fun acc a => if P a then acc else acc ++ [g a]) init →
      x ∈ init ∨ ∃ a, x = g a := by
  intro l
  induction l with
  | nil => intro init x hx; exact Or.inl hx
  | cons a t ih =>
    intro init x hx
    rw [List.foldl_cons] at hx
    rcases ih _ x hx with hi | hg
    · by_cases hp : P a
      · rw [if_pos hp] at hi
        exact Or.inl hi
      · rw [if_neg hp] at hi
        rcases List.mem_append.mp hi with hi | hi
        · exact Or.inl hi
        · exact Or.inr ⟨a, (List.mem_singleton.mp hi)⟩
    · exact Or.inr hg

/-- Every record `read_capa_data` returns has been validated. -/
theorem readCapaData_invariant (content : String) (now : DT) :
    (readCapaData content now).Forall capaInvariant := by
  rw [List.forall_iff_forall_mem]
  intro r hr
  simp only [readCapaData] at hr
  by_cases hc : pyStrip content = ""
  · rw [if_pos hc] at hr
    simp at hr
  · rw [if_neg hc] at hr
    rcases mem_foldl_cond_append _ _ _ _ r hr with h0 | ⟨a, ha⟩
    · simp at h0
    · rw [ha]
      exact validateCapaRecord_invariant now _

/-- Membership in `insertDesc`. -/
theorem mem_insertDesc {E : Type} (d x : Doc E) :
    ∀ l : List (Doc E), x ∈ insertDesc d l ↔ x = d ∨ x ∈ l := by
  intro l
  induction l with
  | nil => simp [insertDesc]
  | cons e t ih =>
    by_cases h : scoreKey e ≤ scoreKey d
    · simp [insertDesc, h]
    · simp only [insertDesc, if_neg h, List.mem_cons, ih]
      tauto

/-- `insertDesc` preserves sortedness by non-increasing score. -/
theorem pairwise_insertDesc {E : Type} (d : Doc E) :
    ∀ l : List (Doc E),
      l.Pairwise (fun a b => scoreKey b ≤ scoreKey a) →
      (insertDesc d l).Pairwise (fun a b => scoreKey b ≤ scoreKey a) := by
  intro l
  induction l with
  | nil => intro _; simp [insertDesc]
  | cons e t ih =>
    intro hp
    rw [List.pairwise_cons] at hp
    by_cases h : scoreKey e ≤ scoreKey d
    · rw [insertDesc, if_pos h, List.pairwise_cons]
      refine ⟨?_, List.pairwise_cons.mpr hp⟩
      intro b hb
      rcases List.mem_cons.mp hb with hb | hb
      · exact hb ▸ h
      · exact le_trans (hp.1 b hb) h
    · rw [insertDesc, if_neg h, List.pairwise_cons]
      refine ⟨?_, ih hp.2⟩
      intro b hb
      rcases (mem_insertDesc d b t).mp hb with hb | hb
      · exact hb ▸ le_of_lt (lt_of_not_le h)
      · exact hp.1 b hb

/-- Membership in `sortDesc`. -/
theorem mem_sortDesc {E : Type} (x : Doc E) :
    ∀ l : List (Doc E), x ∈ sortDesc l ↔ x ∈ l := by
  intro l
  induction l with
  | nil => simp [sortDesc]
  | cons d t ih => simp [sortDesc, mem_insertDesc, ih]

/-- `sortDesc` sorts by non-increasing score. -/
theorem pairwise_sortDesc {E : Type} :
    ∀ l : List (Doc E), (sortDesc l).Pairwise (fun a b => scoreKey b ≤ scoreKey a) := by
  intro l
  induction l with
  | nil => simp [sortDesc]
  | cons d t ih => exact pairwise_insertDesc d _ ih

/-- Taking a prefix preserves `Pairwise`. -/
theorem pairwise_take {α : Type} {R : α → α → Prop} :
    ∀ (n : Nat) (l : List α), l.Pairwise R → (l.take n).Pairwise R := by
  intro n
  induction n with
  | zero => intro l _; simp
  | succ m ih =>
    intro l hl
    cases l with
    | nil => simp
    | cons a t =>
      rw [List.take_succ_cons, List.pairwise_cons]
      rw [List.pairwise_cons] at hl
      exact ⟨fun b hb => hl.1 b (List.take_subset m t hb), ih t hl.2⟩

/-- Every document kept by the scan loop passes the filter and carries a
score drawn above the threshold. -/
theorem scanDocs_invariant {E : Type} (oracle : Nat → ℚ) (criteria : List (String × MVal)) :
    ∀ (l : List (Doc E)) (k : Nat) (x : Doc E),
      x ∈ scanDocs oracle criteria l k →
      matchesCriteria criteria x.metadata = true ∧ ∃ s, x.score = some s ∧ 1 / 2 < s := by
  intro l
  induction l with
  | nil => intro k x hx; simp [scanDocs] at hx
  | cons d ds ih =>
    intro k x hx
    rw [scanDocs] at hx
    by_cases hm : matchesCriteria criteria d.metadata
    · rw [if_pos hm] at hx
      by_cases hs : (1 : ℚ) / 2 < oracle k
      · rw [if_pos hs] at hx
        rcases List.mem_cons.mp hx with hx | hx
        · subst hx
          exact ⟨hm, oracle k, rfl, hs⟩
        · exact ih (k + 1) x hx
      · rw [if_neg hs] at hx
        exact ih (k + 1) x hx
    · rw [if_neg hm] at hx
      exact ih k x hx

/-- C6: for every store state, every filter-criteria dict, every RNG outcome
and every `top_k`, `MCPVectorModule.vector_search` returns at most `top_k`
documents; every returned document satisfies all filter criteria (string
criteria by case-insensitive substring match, others by equality) and carries
a similarity score strictly greater than 0.5; and the result is sorted by
non-increasing score. -/
theorem vector_search_spec (E : Type) (oracle : Nat → ℚ) (store : List (Doc E))
    (criteria : List (String × MVal)) (topK : Nat) :
    (vectorSearch oracle store criteria topK).length ≤ topK ∧
    (vectorSearch oracle store criteria topK).Forall (fun d =>
      matchesCriteria criteria d.metadata = true ∧ ∃ s, d.score = some s ∧ 1 / 2 < s) ∧
    (vectorSearch oracle store criteria topK).Pairwise
      (fun a b => scoreKey b ≤ scoreKey a) := by
  refine ⟨?_, ?_, ?_⟩
  · rw [vectorSearch, List.length_take]
    exact min_le_left _ _
  · rw [List.forall_iff_forall_mem]
    intro d hd
    have hd1 : d ∈ sortDesc (scanDocs oracle criteria store 0) :=
      List.take_subset _ _ hd
    exact scanDocs_invariant oracle criteria store 0 d ((mem_sortDesc d _).mp hd1)
  · exact pairwise_take topK _ (pairwise_sortDesc _)

/-- Appending a document whose id is fresh makes it retrievable by id. -/
theorem getDocument_append_fresh {E : Type} :
    ∀ (l : List (Doc E)) (d : Doc E) (i : String),
      (∀ x ∈ l, x.id ≠ i) → d.id = i → getDocument (l ++ [d]) i = some d := by
  intro l
  induction l with
  | nil =>
    intro d i _ hd
    simp [getDocument, List.find?, hd]
  | cons x t ih =>
    intro d i hfresh hd
    have hx : (x.id == i) = false := by
      rw [beq_eq_false_iff_ne]
      exact hfresh x (List.mem_cons_self x t)
    rw [getDocument] at *
    rw [List.cons_append, List.find?]
    rw [hx]
    exact ih d i (fun y hy => hfresh y (List.mem_cons_of_mem x hy)) hd

/-- C10, counterexample: after deleting `doc_001` from the initial store, the
store holds three documents (`doc_002`, `doc_003`, `doc_004`), so
`add_document` generates the id `doc_004`, which already exists; looking the
returned id up yields the pre-existing pharmacokinetic document, not the one
just added, and the ids in the store are no longer unique. -/
theorem add_get_roundtrip_counterexample :
    collisionStore.2 = "doc_004" ∧
    (getDocument collisionStore.1 "doc_004").map (fun d => d.content) ≠
      some "Fresh stability report" ∧
    ¬ (collisionStore.1.map (fun d => d.id)).Nodup := by
  refine ⟨rfl, ?_, by decide⟩
  intro h
  simp only [collisionStore] at h
  exact absurd h (by decide)

/-- C10, amended: whenever the generated id `doc_{len+1:03d}` does not already
occur in the store — in particular in every state reached without deletions —
`add_document` returns that id and `get_document` on it returns exactly the
document just added, with the given content and metadata. -/
theorem add_get_roundtrip (E : Type) (store : List (Doc E)) (content : String)
    (embedding : E) (metadata : List (String × MVal)) (now : String)
    (hfresh : ∀ d ∈ store, d.id ≠ genDocId store) :
    (addDocument store content embedding metadata now).2 = genDocId store ∧
    getDocument (addDocument store content embedding metadata now).1 (genDocId store) =
      some { id := genDocId store, content := content, metadata := metadata
           , embedding := embedding, score := none, created_at := some now } := by
  refine ⟨rfl, ?_⟩
  exact getDocument_append_fresh store _ (genDocId store) hfresh rfl

/-- Witness for the amended C10 theorem at the initial mock store, where the
generated id `doc_005` is fresh. -/
theorem add_get_roundtrip_witness :
    getDocument
        (addDocument (initialVectorStore () () () ()) "c" () [] "t").1
        (genDocId (initialVectorStore () () () ())) =
      some { id := genDocId (initialVectorStore () () () ()), content := "c"
           , metadata := [], embedding := (), score := none, created_at := some "t" } :=
  (add_get_roundtrip Unit (initialVectorStore () () () ()) "c" () [] "t" (by decide)).2

/-- C3: whenever the generative call raises (any exception message) or yields
an empty response, `break_down_query` returns the static fallback dictionary —
with its reasoning string, exactly the three sub-questions Q1 (open CAPAs in
the last year), Q2 (brand 'Avino' investigations), Q3 (the Avino clinical
trial summary) and the agent mapping for capa_agent, neo4j_agent and
vector_agent.  The function is total, so no exception reaches the caller. -/
theorem break_down_query_fallback (e : String)
    (parseJson : String → Option Breakdown) :
    breakDownQuery (.error e) parseJson = fallbackBreakdown ∧
    breakDownQuery (.ok "") parseJson = fallbackBreakdown ∧
    fallbackBreakdown.reasoning = "Fallback breakdown due to API error" ∧
    fallbackBreakdown.sub_questions.length = 3 ∧
    fallbackBreakdown.sub_questions =
      [ "Q1: How many open CAPA are present in the last 1 year?"
      , "Q2: Fetch Investigation details for brand 'Avino' including CAPA ID, Investigation Name, Brand, Batch Number, PDF Link"
      , "Q3: Retrieve clinical trial summary for brand 'Avino' from vector database" ] ∧
    fallbackBreakdown.agent_mapping.map (·.1) =
      ["capa_agent", "neo4j_agent", "vector_agent"] := by
  exact ⟨rfl, rfl, rfl, rfl, rfl, rfl⟩

/-- C8: every record returned by `MCPCapaModule.read_capa_data` satisfies the
validation invariant — `capa_id`, `title` and `date` are non-empty and the
status is one of OPEN, CLOSED, IN_PROGRESS, PENDING, CANCELLED — and
`_validate_capa_record` maps statuses exactly as claimed (unrecognized ones
by the PROGRESS/WORKING and COMPLETE/DONE substring rules, all others to
OPEN) and defaults region to `Global` and priority to `Medium` exactly when
the field is absent or empty. -/
theorem capa_validation_invariant (content : String) (now : DT) (r : RecD) :
    (readCapaData content now).Forall capaInvariant ∧
    dget (validateCapaRecord now r) "status" "" =
      standardizeStatus (if dget r "status" "" = "" then "UNKNOWN" else dget r "status" "") ∧
    dget (validateCapaRecord now r) "region" "" =
      (if dget r "region" "" = "" then "Global" else dget r "region" "") ∧
    dget (validateCapaRecord now r) "priority" "" =
      (if dget r "priority" "" = "" then "Medium" else dget r "priority" "") :=
  ⟨readCapaData_invariant content now, validate_status_eq now r,
    validate_region_eq now r, validate_priority_eq now r⟩

/-- C2, counterexample: `CapaAgent.process_query` does not return success on
every list of parsed CAPA records — on the empty list it returns the failure
dict with `success = False` and the no-data error message (and the code
applies no cap to `details` on any other input). -/
theorem process_query_counterexample :
    (processQuery (.ok []) ⟨2024, 10, 12, 0, 0, 0⟩ "q" "d").success = false ∧
    (processQuery (.ok []) ⟨2024, 10, 12, 0, 0, 0⟩ "q" "d").error =
      some "No CAPA data found or file not accessible" :=
  ⟨rfl, rfl⟩

/-- C2, amended: for every non-empty list of parsed CAPA records,
`process_query` returns success; `details` is the full, uncapped list of the
records whose status equals OPEN case-insensitively and whose date string
parses (with the first of the five supported formats that succeeds) to a
datetime no earlier than the `one_year_ago` cutoff, and `count` equals the
length of that list.  On the empty list it returns the failure dict instead
(see the counterexample). -/
theorem process_query_amended (rs : List RecD) (oneYearAgo : DT) (q d : String)
    (hne : rs ≠ []) :
    processQuery (.ok rs) oneYearAgo q d =
      { success := true, error := none
      , count := (rs.filter (capaOpenPred oneYearAgo)).length
      , details := rs.filter (capaOpenPred oneYearAgo)
      , query_processed := some q, analysis_date := some d } := by
  rw [processQuery]
  rw [if_neg (by simp [List.isEmpty_iff, hne])]
  rw [foldl_append_filter (capaOpenPred oneYearAgo) rs []]
  simp

/-- Witness for the amended C2 theorem: one open record dated inside the
window. -/
theorem process_query_witness :
    processQuery (.ok [[("status", "Open"), ("date", "2024-06-01")]])
        ⟨2024, 1, 1, 0, 0, 0⟩ "q" "d" =
      { success := true, error := none, count := 1
      , details := [[("status", "Open"), ("date", "2024-06-01")]]
      , query_processed := some "q", analysis_date := some "d" } := by
  rw [process_query_amended [[("status", "Open"), ("date", "2024-06-01")]]
    ⟨2024, 1, 1, 0, 0, 0⟩ "q" "d" (by decide)]
  decide

/-- C7: each public agent operation catches any internal exception and
returns a dict with `success = False`, `error` the exception text and the
operation's empty defaults: `CapaAgent.process_query` (count 0, no details),
`Neo4jAgent.get_investigations` (no investigations, count 0, echoing brand
and CAPA ids) and `VectorAgent.search_clinical_trials` (whose one raise site,
a falsy query embedding, raises `ValueError("Failed to generate query
embedding")`; the failure dict echoes brand and pdf links).  All three
embeddings are total functions, so no exception reaches the workflow. -/
theorem agent_error_wrappers (e : String) (oneYearAgo : DT)
    (q d brandName ts : String) (capaIds pdfLinks : List String) (E : Type)
    (oracle : Nat → ℚ) (store : List (Doc E)) (gen : String → String → String) :
    processQuery (.error e) oneYearAgo q d =
      { success := false, error := some e, count := 0, details := []
      , query_processed := none, analysis_date := none } ∧
    getInvestigationsAgent (.error e) brandName capaIds ts =
      { success := false, error := some e, investigations := [], count := 0
      , brand := brandName, capa_ids := capaIds, query_timestamp := none } ∧
    searchClinicalTrials E none oracle store gen brandName pdfLinks =
      { success := false, error := some "Failed to generate query embedding"
      , summary := "", brand := brandName, pdf_links := pdfLinks
      , documents_found := 0, search_results := none, query := none } :=
  ⟨rfl, rfl, rfl⟩

/-- C4, counterexample: a successful vector result with an empty summary does
not have its summary inserted as the claim states — `consolidate_results`
inserts the fixed no-data sentence instead. -/
theorem consolidate_results_counterexample :
    consolidateParts Unit (some sampleCapaSuccess) (some sampleNeoSuccess)
        (some sampleVecEmptySummary) ≠
      [ capaSummaryPart (some sampleCapaSuccess)
      , invSummaryPart (some sampleNeoSuccess)
      , ctSummaryPartClaimed (some sampleVecEmptySummary) ] := by
  decide

/-- C4, amended: `consolidate_results` builds exactly three parts, joined by
newlines in the fixed order CAPA analysis, investigations, clinical trials;
a successful CAPA result contributes its count, a successful Neo4j result the
number of its investigations, a successful vector result its summary when the
summary is non-empty and a fixed no-data sentence otherwise, and every failed
(or absent) result contributes its recorded error string (default `Unknown
error`); the newline-joined concatenation is passed to the final-summary
generative call. -/
theorem consolidate_results_spec (E : Type) (gen : String → String)
    (capaR : Option CapaQueryResult) (neoR : Option NeoResult)
    (vecR : Option (VectorAgentResult E)) :
    consolidateParts E capaR neoR vecR =
      [ (match capaR with
         | some cr =>
           if cr.success then
             "**CAPA Analysis:** Found " ++ toString cr.count ++ " open CAPAs in the last year."
           else "**CAPA Analysis:** Error - " ++ cr.error.getD "Unknown error"
         | none => "**CAPA Analysis:** Error - Unknown error")
      , (match neoR with
         | some nr =>
           if nr.success then
             "**Investigations:** Found " ++ toString nr.investigations.length ++
               " investigations for brand Avino."
           else "**Investigations:** Error - " ++ nr.error.getD "Unknown error"
         | none => "**Investigations:** Error - Unknown error")
      , (match vecR with
         | some vr =>
           if vr.success then
             if vr.summary = "" then
               "**Clinical Trials:** No clinical trial data found for brand Avino."
             else "**Clinical Trials:** " ++ vr.summary
           else "**Clinical Trials:** Error - " ++ vr.error.getD "Unknown error"
         | none => "**Clinical Trials:** Error - Unknown error") ] ∧
    (consolidateParts E capaR neoR vecR).length = 3 ∧
    consolidateFinalSummary E gen capaR neoR vecR =
      gen (String.intercalate "\n" (consolidateParts E capaR neoR vecR)) :=
  ⟨rfl, rfl, rfl⟩

/-- `drawGaussians` draws exactly `n` samples. -/
theorem length_drawGaussians {R : Type} (g : R → ℝ × R) :
    ∀ (n : Nat) (s : R), (drawGaussians g n s).length = n := by
  intro n
  induction n with
  | zero => intro s; rfl
  | succ m ih => intro s; simp [drawGaussians, ih]

/-- A sum of squares is nonnegative. -/
theorem sumSq_nonneg : ∀ v : List ℝ, 0 ≤ sumSq v := by
  intro v
  induction v with
  | nil => exact le_refl 0
  | cons x t ih =>
    have hx : 0 ≤ x * x := mul_self_nonneg x
    calc (0 : ℝ) ≤ x * x + sumSq t := by positivity
    _ = sumSq (x :: t) := rfl

/-- Sum of squares after dividing every entry by a constant. -/
theorem sumSq_map_div (c : ℝ) :
    ∀ v : List ℝ, sumSq (v.map (fun x => x / c)) = sumSq v / (c * c) := by
  intro v
  induction v with
  | nil => simp [sumSq]
  | cons x t ih =>
    show x / c * (x / c) + sumSq (t.map (fun x => x / c)) = (x * x + sumSq t) / (c * c)
    rw [ih, div_mul_div_comm, div_add_div_same]

/-- Constant sampler over a unit state draws a constant vector. -/
theorem drawGaussians_const (c : ℝ) :
    ∀ n : Nat, drawGaussians (fun s : Unit => (c, s)) n () = List.replicate n c := by
  intro n
  induction n with
  | zero => rfl
  | succ m ih => simp [drawGaussians, ih, List.replicate]

/-- Sum of squares of the all-ones vector. -/
theorem sumSq_replicate_one : ∀ n : Nat, sumSq (List.replicate n (1 : ℝ)) = n := by
  intro n
  induction n with
  | zero => simp [sumSq]
  | succ m ih =>
    show (1 : ℝ) * 1 + sumSq (List.replicate m (1 : ℝ)) = (m + 1 : ℕ)
    rw [ih]
    push_cast
    ring

/-- C9: `_generate_mock_embedding` is deterministic — its result depends only
on the text, not on the incoming RNG state, because the generator is seeded
from the MD5 hash of the text — the returned vector always has length 768,
the error path returns the all-zero vector, and whenever the drawn vector is
not identically zero the returned vector has Euclidean norm 1 (in exact real
arithmetic). -/
theorem mock_embedding_deterministic (R : Type) (mtInit : Nat → R) (g : R → ℝ × R)
    (md5hex : String → String) (s1 s2 : R) (text : String) :
    mockEmbedding mtInit g md5hex s1 text = mockEmbedding mtInit g md5hex s2 text ∧
    (mockEmbedding mtInit g md5hex s1 text).length = 768 ∧
    (hexToNat (pyTake (md5hex text) 8) = none →
      mockEmbedding mtInit g md5hex s1 text = List.replicate 768 0) ∧
    (∀ seed, hexToNat (pyTake (md5hex text) 8) = some seed →
      sumSq (drawGaussians g 768 (mtInit seed)) ≠ 0 →
      Real.sqrt (sumSq (mockEmbedding mtInit g md5hex s1 text)) = 1) := by
  refine ⟨rfl, ?_, ?_, ?_⟩
  · rw [mockEmbedding]
    cases hseed : hexToNat (pyTake (md5hex text) 8) with
    | none => rw [List.length_replicate]
    | some seed =>
      simp only [normalizeVec]
      split_ifs with h
      · rw [List.length_map, length_drawGaussians]
      · rw [length_drawGaussians]
  · intro h
    rw [mockEmbedding, h]
  · intro seed hseed hs
    rw [mockEmbedding, hseed]
    have hpos : 0 < sumSq (drawGaussians g 768 (mtInit seed)) :=
      lt_of_le_of_ne (sumSq_nonneg _) (Ne.symm hs)
    have hsqrt : 0 < Real.sqrt (sumSq (drawGaussians g 768 (mtInit seed))) :=
      Real.sqrt_pos.mpr hpos
    simp only [normalizeVec]
    rw [if_pos hsqrt, sumSq_map_div,
      Real.mul_self_sqrt (le_of_lt hpos), div_self (ne_of_gt hpos), Real.sqrt_one]

/-- Witness for C9 at the constant-one sampler over the unit RNG state: the
drawn vector is all ones, its sum of squares is 768, and the normalized
embedding has norm 1. -/
theorem mock_embedding_witness :
    Real.sqrt (sumSq (mockEmbedding (fun _ => ()) (fun s : Unit => ((1 : ℝ), s))
      (fun _ => "0") () "a")) = 1 := by
  refine (mock_embedding_deterministic Unit (fun _ => ()) (fun s : Unit => ((1 : ℝ), s))
    (fun _ => "0") () () "a").2.2.2 0 (by decide) ?_
  rw [drawGaussians_const, sumSq_replicate_one]
  norm_num

end GenAI
